import Mathlib

/-
Verification of the sipgate MCP server's request-dispatch and
resource-resolution core (src/index.ts) against its specification.

The TypeScript source is shallowly embedded: JSON values are an inductive
type, JavaScript truthiness and property access are modelled explicitly,
the external sipgate client library is an abstract `Provider` record of
fallible operations, and every provider invocation made by a handler is
recorded in an explicit trace so that "no provider call is made" is a
statement about the trace.  JavaScript numbers are modelled as integers
(no claim involves non-integral numbers), and `JSON.stringify`'s 2-space
pretty printing is modelled by a compact deterministic serializer: the
claims depend only on the serializer being a function of the value and on
the atoms ("null", "[]", string quoting), which agree with JS.
-/

namespace Sipgate

/-- JSON values, as manipulated by the untyped TypeScript code. -/
inductive Json where
  | null : Json
  | bool : Bool → Json
  | num : Int → Json
  | str : String → Json
  | arr : List Json → Json
  | obj : List (String × Json) → Json

/-- JavaScript truthiness of a JSON value: `null`, `false`, `0` and `""`
are falsy; every array and object (including empty ones) is truthy. -/
def jsTruthy : Json → Bool
  | Json.null => false
  | Json.bool b => b
  | Json.num n => n != 0
  | Json.str s => s != ""
  | Json.arr _ => true
  | Json.obj _ => true

/-- Truthiness of a possibly-`undefined` value (`none` = JS `undefined`). -/
def jsTruthyOpt : Option Json → Bool
  | none => false
  | some v => jsTruthy v

/-- An argument object / JS object as an association list of fields. -/
abbrev Args := List (String × Json)

/-- Field lookup on an association list (JS property read on an object);
`none` models `undefined`. -/
def argGet : Args → String → Option Json
  | [], _ => none
  | (k, v) :: rest, key => if k = key then some v else argGet rest key

/-- `!args.key` style truthiness test on an argument object. -/
def argTruthy (args : Args) (key : String) : Bool :=
  jsTruthyOpt (argGet args key)

/-- JS property access `v.key` on an arbitrary JSON value: defined for
objects, `undefined` otherwise. -/
def jsField : Json → String → Option Json
  | Json.obj fs, key => argGet fs key
  | _, _ => none

mutual
/-- Deterministic JSON serialization modelling `JSON.stringify`.  Compact
rather than 2-space pretty-printed; atoms (`null`, booleans, numbers,
strings, `[]`, `\x7b\x7d`) agree with JavaScript. -/
def jsonStringify : Json → String
  | Json.null => "null"
  | Json.bool b => if b then "true" else "false"
  | Json.num n => toString n
  | Json.str s => "\"" ++ s ++ "\""
  | Json.arr xs => "[" ++ stringifyArr xs ++ "]"
  | Json.obj fs => "\x7b" ++ stringifyObj fs ++ "\x7d"

/-- Comma-separated serialization of array elements. -/
def stringifyArr : List Json → String
  | [] => ""
  | [x] => jsonStringify x
  | x :: y :: rest => jsonStringify x ++ "," ++ stringifyArr (y :: rest)

/-- Comma-separated serialization of object fields. -/
def stringifyObj : List (String × Json) → String
  | [] => ""
  | [(k, v)] => "\"" ++ k ++ "\":" ++ jsonStringify v
  | (k, v) :: f :: rest =>
      "\"" ++ k ++ "\":" ++ jsonStringify v ++ "," ++ stringifyObj (f :: rest)
end

mutual
/-- JavaScript string coercion (template-literal interpolation).  Arrays
join their elements' coercions with commas; objects coerce to
"[object Object]".  Only ever applied to strings in the claims. -/
def jsToString : Json → String
  | Json.null => "null"
  | Json.bool b => if b then "true" else "false"
  | Json.num n => toString n
  | Json.str s => s
  | Json.arr xs => jsToStringList xs
  | Json.obj _ => "[object Object]"

/-- Comma-joined coercion of array elements. -/
def jsToStringList : List Json → String
  | [] => ""
  | [x] => jsToString x
  | x :: y :: rest => jsToString x ++ "," ++ jsToStringList (y :: rest)
end

/-- Coercion of a possibly-`undefined` value into a template literal. -/
def jsToStringOpt : Option Json → String
  | none => "undefined"
  | some v => jsToString v

/-- Characters matched by the JavaScript regex class `\s`. -/
def isJsWhitespace (c : Char) : Bool :=
  c == ' ' || c == '\t' || c == '\n' || c == '\r' ||
  c == '\x0b' || c == '\x0c' || c == ' ' || c == ' ' ||
  (0x2000 ≤ c.toNat && c.toNat ≤ 0x200A) ||
  c == ' ' || c == ' ' || c == ' ' || c == ' ' ||
  c == '　' || c == '﻿'

/-- `s.replace(/\s+/g, '')` (line 369): remove every whitespace character. -/
def stripWs (s : String) : String :=
  String.mk (s.data.filter (fun c => !isJsWhitespace c))

/-- The MCP error codes used by the server. -/
inductive ErrorCode where
  | InvalidRequest : ErrorCode
  | InvalidParams : ErrorCode
  | MethodNotFound : ErrorCode
  | InternalError : ErrorCode
deriving DecidableEq

/-- A thrown JavaScript exception: either an `McpError` carrying an error
code, or a plain `Error` (as thrown by the provider library).  `message`
is modelled as the constructor-supplied string. -/
inductive JsError where
  | mcp : ErrorCode → String → JsError
  | plain : String → JsError

/-- The `.message` property read by the catch blocks. -/
def JsError.message : JsError → String
  | JsError.mcp _ m => m
  | JsError.plain m => m

/-- The history filter object passed to `historyModule.fetchAll`: the tool
path always sets `types`, the resource path (line 150) passes only
`limit: 20`. -/
structure HistoryFilter where
  limit : Json
  types : Option Json

/-- The `smsData` object forwarded to `smsModule.send` (lines 367-371). -/
structure SmsData where
  smsId : Option Json
  to_ : String
  message : Option Json

/-- The `callData` object forwarded to `callModule.initiate`
(lines 407-414). -/
structure CallData where
  from_ : Option Json
  to_ : Option Json
  callerId : Option Json

/-- One provider-library invocation, recorded with its arguments. -/
inductive ProviderCall where
  | getAccount : ProviderCall
  | getAllNumbers : ProviderCall
  | fetchAll : HistoryFilter → ProviderCall
  | getAuthenticatedWebuserId : ProviderCall
  | getDevices : String → ProviderCall
  | getSmsCapabilities : String → ProviderCall
  | sendSms : SmsData → ProviderCall
  | initiateCall : CallData → ProviderCall
  | getUser : String → ProviderCall

/-- The sequence of provider invocations a handler performed, in order. -/
abbrev Trace := List ProviderCall

/-- The external sipgate client and its five modules, abstracted as a
record of fallible operations (errors carry the thrown `Error`'s
message). -/
structure Provider where
  getAccount : Except String Json
  getAllNumbers : Except String Json
  fetchAll : HistoryFilter → Except String Json
  getAuthenticatedWebuserId : Except String String
  getDevices : String → Except String Json
  getSmsCapabilities : String → Except String Json
  sendSms : SmsData → Except String Unit
  initiateCall : CallData → Except String Unit
  getUser : String → Except String Json

/-- The tool-call response envelope.  The source always returns a single
text content item, modelled directly as `text`. -/
structure Envelope where
  text : String
  isError : Bool

/-- `extensionsResponse.items || []` (line 351): the provider response's
"items" field, defaulting to the empty list when absent or non-array.
(Non-array truthy "items" values do not occur in the sipgate API and are
not modelled.) -/
def smsExtensions (resp : Json) : List Json :=
  match jsField resp "items" with
  | some (Json.arr xs) => xs
  | _ => []

/-- `args.recipient.replace(/\s+/g, '')` (line 369): succeeds on strings,
throws a TypeError on any non-string value. -/
def jsReplaceStripWs : Option Json → Except JsError String
  | some (Json.str s) => Except.ok (stripWs s)
  | _ => Except.error (JsError.plain "args.recipient.replace is not a function")

/-- The default `types` list of `get_call_history` (line 429). -/
def defaultHistoryTypes : Json :=
  Json.arr [Json.str "CALL", Json.str "VOICEMAIL", Json.str "FAX", Json.str "SMS"]

/-- The `get_account_info` case (lines 300-316), with its inner catch that
re-wraps provider failures as `InternalError`. -/
def getAccountInfoCase (p : Provider) : Except JsError Envelope × Trace :=
  match p.getAccount with
  | Except.ok response =>
      (Except.ok { text := jsonStringify response, isError := false },
       [ProviderCall.getAccount])
  | Except.error m =>
      (Except.error (JsError.mcp ErrorCode.InternalError
         ("Error getting account info: " ++ m)),
       [ProviderCall.getAccount])

/-- The `get_phone_numbers` case (lines 318-334): truthiness-guarded
fallback text, inner catch re-wrapping provider failures. -/
def getPhoneNumbersCase (p : Provider) : Except JsError Envelope × Trace :=
  match p.getAllNumbers with
  | Except.ok numbers =>
      (Except.ok { text := if jsTruthy numbers then jsonStringify numbers
                           else "No phone numbers available",
                   isError := false },
       [ProviderCall.getAllNumbers])
  | Except.error m =>
      (Except.error (JsError.mcp ErrorCode.InternalError
         ("Error getting phone numbers: " ++ m)),
       [ProviderCall.getAllNumbers])

/-- The body of the `send_sms` case (lines 338-389): validation of
`recipient` and `message` (only), webuser-id resolution, SMS-extension
listing, first-extension selection, whitespace stripping, and the inner
try/catch around `smsModule.send` that turns a send failure into an
`isError` envelope rather than a throw. -/
def sendSmsBody (p : Provider) (args : Args) : Except JsError Envelope × Trace :=
  if !argTruthy args "recipient" || !argTruthy args "message" then
    (Except.error (JsError.mcp ErrorCode.InvalidParams
       "Missing required parameters: recipient and message are required"), [])
  else
    match p.getAuthenticatedWebuserId with
    | Except.error m =>
        (Except.error (JsError.plain m), [ProviderCall.getAuthenticatedWebuserId])
    | Except.ok webuserId =>
      match p.getSmsCapabilities webuserId with
      | Except.error m =>
          (Except.error (JsError.plain m),
           [ProviderCall.getAuthenticatedWebuserId,
            ProviderCall.getSmsCapabilities webuserId])
      | Except.ok extensionsResponse =>
        match smsExtensions extensionsResponse with
        | [] =>
            (Except.error (JsError.mcp ErrorCode.InternalError
               "No SMS extensions available for this account"),
             [ProviderCall.getAuthenticatedWebuserId,
              ProviderCall.getSmsCapabilities webuserId])
        | smsExtension :: _ =>
          let debugInfo :=
            "Debug Info:\nWeb User ID: " ++ webuserId ++
            "\nUsing SMS Extension: " ++ jsonStringify smsExtension
          match jsReplaceStripWs (argGet args "recipient") with
          | Except.error e =>
              (Except.error e,
               [ProviderCall.getAuthenticatedWebuserId,
                ProviderCall.getSmsCapabilities webuserId])
          | Except.ok strippedTo =>
            let smsData : SmsData :=
              { smsId := jsField smsExtension "id",
                to_ := strippedTo,
                message := argGet args "message" }
            match p.sendSms smsData with
            | Except.ok _ =>
                (Except.ok { text := debugInfo ++ "\n\nSMS sent successfully to " ++
                               jsToStringOpt (argGet args "recipient"),
                             isError := false },
                 [ProviderCall.getAuthenticatedWebuserId,
                  ProviderCall.getSmsCapabilities webuserId,
                  ProviderCall.sendSms smsData])
            | Except.error m =>
                (Except.ok { text := debugInfo ++ "\n\nSMS Error: " ++ m,
                             isError := true },
                 [ProviderCall.getAuthenticatedWebuserId,
                  ProviderCall.getSmsCapabilities webuserId,
                  ProviderCall.sendSms smsData])

/-- The `send_sms` case with its outer catch (lines 390-395): every error
escaping the body, including the `InvalidParams` validation throw, is
re-wrapped as `InternalError` with a "SMS sending failed: " prefix. -/
def sendSmsCase (p : Provider) (args : Args) : Except JsError Envelope × Trace :=
  match sendSmsBody p args with
  | (Except.error e, t) =>
      (Except.error (JsError.mcp ErrorCode.InternalError
         ("SMS sending failed: " ++ e.message)), t)
  | (Except.ok env, t) => (Except.ok env, t)

/-- The `initiate_call` case (lines 398-424): validation of `from` and
`to`, optional `callerId`, no inner catch. -/
def initiateCallCase (p : Provider) (args : Args) : Except JsError Envelope × Trace :=
  if !argTruthy args "from" || !argTruthy args "to" then
    (Except.error (JsError.mcp ErrorCode.InvalidParams
       "Missing required parameters: from and to are required"), [])
  else
    let callData : CallData :=
      { from_ := argGet args "from",
        to_ := argGet args "to",
        callerId := if argTruthy args "callerId" then argGet args "callerId" else none }
    match p.initiateCall callData with
    | Except.ok _ =>
        (Except.ok { text := "Call initiated from " ++ jsToStringOpt (argGet args "from") ++
                       " to " ++ jsToStringOpt (argGet args "to"),
                     isError := false },
         [ProviderCall.initiateCall callData])
    | Except.error m =>
        (Except.error (JsError.plain m), [ProviderCall.initiateCall callData])

/-- The `get_call_history` case (lines 426-444): `args.limit || 10`,
`args.types || [CALL, VOICEMAIL, FAX, SMS]`, truthiness-guarded fallback
text. -/
def getCallHistoryCase (p : Provider) (args : Args) : Except JsError Envelope × Trace :=
  let limit := match argGet args "limit" with
    | some v => if jsTruthy v then v else Json.num 10
    | none => Json.num 10
  let types := match argGet args "types" with
    | some v => if jsTruthy v then v else defaultHistoryTypes
    | none => defaultHistoryTypes
  let historyFilter : HistoryFilter := { limit := limit, types := some types }
  match p.fetchAll historyFilter with
  | Except.ok history =>
      (Except.ok { text := if jsTruthy history then jsonStringify history
                           else "No call history available",
                   isError := false },
       [ProviderCall.fetchAll historyFilter])
  | Except.error m =>
      (Except.error (JsError.plain m), [ProviderCall.fetchAll historyFilter])

/-- The `get_user_info` case (lines 446-456). -/
def getUserInfoCase (p : Provider) : Except JsError Envelope × Trace :=
  match p.getAuthenticatedWebuserId with
  | Except.error m =>
      (Except.error (JsError.plain m), [ProviderCall.getAuthenticatedWebuserId])
  | Except.ok webuserId =>
    match p.getUser webuserId with
    | Except.ok response =>
        (Except.ok { text := jsonStringify response, isError := false },
         [ProviderCall.getAuthenticatedWebuserId, ProviderCall.getUser webuserId])
    | Except.error m =>
        (Except.error (JsError.plain m),
         [ProviderCall.getAuthenticatedWebuserId, ProviderCall.getUser webuserId])

/-- The `get_devices` case (lines 458-467): truthiness-guarded fallback
text. -/
def getDevicesCase (p : Provider) : Except JsError Envelope × Trace :=
  match p.getAuthenticatedWebuserId with
  | Except.error m =>
      (Except.error (JsError.plain m), [ProviderCall.getAuthenticatedWebuserId])
  | Except.ok webuserId =>
    match p.getDevices webuserId with
    | Except.ok devices =>
        (Except.ok { text := if jsTruthy devices then jsonStringify devices
                             else "No devices available",
                     isError := false },
         [ProviderCall.getAuthenticatedWebuserId, ProviderCall.getDevices webuserId])
    | Except.error m =>
        (Except.error (JsError.plain m),
         [ProviderCall.getAuthenticatedWebuserId, ProviderCall.getDevices webuserId])

/-- A tool-call request: tool name plus argument object. -/
structure ToolRequest where
  name : String
  arguments : Args

/-- The seven registered tool names (the ListTools descriptor set,
lines 188-295). -/
def toolNames : List String :=
  ["get_account_info", "get_phone_numbers", "send_sms", "initiate_call",
   "get_call_history", "get_user_info", "get_devices"]

/-- The CallTool switch (lines 299-474), before the outer catch: each case
may return an envelope or throw; the default case throws
`MethodNotFound`. -/
def callToolInner (p : Provider) (req : ToolRequest) : Except JsError Envelope × Trace :=
  if req.name = "get_account_info" then getAccountInfoCase p
  else if req.name = "get_phone_numbers" then getPhoneNumbersCase p
  else if req.name = "send_sms" then sendSmsCase p req.arguments
  else if req.name = "initiate_call" then initiateCallCase p req.arguments
  else if req.name = "get_call_history" then getCallHistoryCase p req.arguments
  else if req.name = "get_user_info" then getUserInfoCase p
  else if req.name = "get_devices" then getDevicesCase p
  else (Except.error (JsError.mcp ErrorCode.MethodNotFound
          ("Unknown tool: " ++ req.name)), [])

/-- The full CallTool handler with its outer catch (lines 475-483): every
error thrown by the switch — provider failures, runtime errors, and the
`McpError`s thrown for malformed requests alike — is converted into an
`isError: true` envelope. -/
def callTool (p : Provider) (req : ToolRequest) : Envelope × Trace :=
  match callToolInner p req with
  | (Except.ok env, t) => (env, t)
  | (Except.error e, t) =>
      ({ text := "Sipgate API error: " ++ e.message, isError := true }, t)

/-- The resource cache `cachedResources`, an object keyed by uri. -/
abbrev Cache := List (String × Json)

/-- `this.cachedResources[uri]`: `none` models `undefined`. -/
def cacheLookup : Cache → String → Option Json
  | [], _ => none
  | (k, v) :: rest, uri => if k = uri then some v else cacheLookup rest uri

/-- `this.cachedResources[uri] = data` (line 166). -/
def cacheSet : Cache → String → Json → Cache
  | [], uri, v => [(uri, v)]
  | (k, w) :: rest, uri, v =>
      if k = uri then (uri, v) :: rest else (k, w) :: cacheSet rest uri v

/-- A successful resource read's contents (`mimeType` is the constant
"application/json" and is omitted). -/
structure ResourceContents where
  uri : String
  text : String

/-- The uri dispatch of the ReadResource handler (lines 136-163): the
four known uris call the provider; any other uri throws
`InvalidRequest`. -/
def readResourceUncached (p : Provider) (uri : String) : Except JsError Json × Trace :=
  if uri = "sipgate://account" then
    match p.getAccount with
    | Except.ok d => (Except.ok d, [ProviderCall.getAccount])
    | Except.error m => (Except.error (JsError.plain m), [ProviderCall.getAccount])
  else if uri = "sipgate://numbers" then
    match p.getAllNumbers with
    | Except.ok d => (Except.ok d, [ProviderCall.getAllNumbers])
    | Except.error m => (Except.error (JsError.plain m), [ProviderCall.getAllNumbers])
  else if uri = "sipgate://history" then
    match p.fetchAll { limit := Json.num 20, types := none } with
    | Except.ok d => (Except.ok d, [ProviderCall.fetchAll { limit := Json.num 20, types := none }])
    | Except.error m =>
        (Except.error (JsError.plain m),
         [ProviderCall.fetchAll { limit := Json.num 20, types := none }])
  else if uri = "sipgate://devices" then
    match p.getAuthenticatedWebuserId with
    | Except.error m =>
        (Except.error (JsError.plain m), [ProviderCall.getAuthenticatedWebuserId])
    | Except.ok w =>
      match p.getDevices w with
      | Except.ok d =>
          (Except.ok d,
           [ProviderCall.getAuthenticatedWebuserId, ProviderCall.getDevices w])
      | Except.error m =>
          (Except.error (JsError.plain m),
           [ProviderCall.getAuthenticatedWebuserId, ProviderCall.getDevices w])
  else
    (Except.error (JsError.mcp ErrorCode.InvalidRequest ("Invalid URI: " ++ uri)), [])

/-- The cache-miss path of the ReadResource handler: on success the data
is cached (line 166) and serialized; the catch (lines 175-180) re-wraps
every error — provider failures and the `InvalidRequest` throw alike —
as `InternalError`. -/
def readResourceMiss (p : Provider) (c : Cache) (uri : String) :
    Except JsError ResourceContents × Cache × Trace :=
  match readResourceUncached p uri with
  | (Except.ok data, t) =>
      (Except.ok { uri := uri, text := jsonStringify data }, cacheSet c uri data, t)
  | (Except.error e, t) =>
      (Except.error (JsError.mcp ErrorCode.InternalError
         ("Sipgate API error: " ++ e.message)), c, t)

/-- The full ReadResource handler (lines 121-181): the cache check at
line 125 is a JS truthiness test on `cachedResources[uri]`, so a falsy
cached value falls through to the provider path. -/
def readResource (p : Provider) (c : Cache) (uri : String) :
    Except JsError ResourceContents × Cache × Trace :=
  match cacheLookup c uri with
  | some v =>
      if jsTruthy v then
        (Except.ok { uri := uri, text := jsonStringify v }, c, [])
      else readResourceMiss p c uri
  | none => readResourceMiss p c uri

/-- A concrete provider in which every operation succeeds, with two SMS
extensions "s0" and "s1" in that order. -/
def testProvider : Provider :=
  { getAccount := Except.ok (Json.obj [("company", Json.str "ACME")]),
    getAllNumbers := Except.ok (Json.arr [Json.str "+4912"]),
    fetchAll := fun _ => Except.ok (Json.arr [Json.str "call1"]),
    getAuthenticatedWebuserId := Except.ok "w0",
    getDevices := fun _ => Except.ok (Json.arr [Json.str "dev0"]),
    getSmsCapabilities := fun _ =>
      Except.ok (Json.obj [("items", Json.arr
        [Json.obj [("id", Json.str "s0")], Json.obj [("id", Json.str "s1")]])]),
    sendSms := fun _ => Except.ok (),
    initiateCall := fun _ => Except.ok (),
    getUser := fun w => Except.ok (Json.obj [("id", Json.str w)]) }

/-- A concrete provider in which every operation fails with message
"boom". -/
def failingProvider : Provider :=
  { getAccount := Except.error "boom",
    getAllNumbers := Except.error "boom",
    fetchAll := fun _ => Except.error "boom",
    getAuthenticatedWebuserId := Except.error "boom",
    getDevices := fun _ => Except.error "boom",
    getSmsCapabilities := fun _ => Except.error "boom",
    sendSms := fun _ => Except.error "boom",
    initiateCall := fun _ => Except.error "boom",
    getUser := fun _ => Except.error "boom" }

/-- A concrete provider whose collection-returning operations return JSON
`null` (an absent collection). -/
def nullProvider : Provider :=
  { getAccount := Except.ok Json.null,
    getAllNumbers := Except.ok Json.null,
    fetchAll := fun _ => Except.ok Json.null,
    getAuthenticatedWebuserId := Except.ok "w0",
    getDevices := fun _ => Except.ok Json.null,
    getSmsCapabilities := fun _ => Except.ok (Json.obj [("items", Json.arr [])]),
    sendSms := fun _ => Except.ok (),
    initiateCall := fun _ => Except.ok (),
    getUser := fun _ => Except.ok Json.null }

/-- A concrete provider whose collection-returning operations return empty
arrays (empty but present collections). -/
def emptyProvider : Provider :=
  { getAccount := Except.ok (Json.obj []),
    getAllNumbers := Except.ok (Json.arr []),
    fetchAll := fun _ => Except.ok (Json.arr []),
    getAuthenticatedWebuserId := Except.ok "w0",
    getDevices := fun _ => Except.ok (Json.arr []),
    getSmsCapabilities := fun _ => Except.ok (Json.obj [("items", Json.arr [])]),
    sendSms := fun _ => Except.ok (),
    initiateCall := fun _ => Except.ok (),
    getUser := fun _ => Except.ok (Json.obj []) }

/-- A string with a non-empty literal prefix is non-empty. -/
theorem sipgate_prefix_ne_empty (m : String) : "Sipgate API error: " ++ m ≠ "" := by
  intro h
  have hl := congrArg String.length h
  rw [String.length_append] at hl
  have h1 : ("Sipgate API error: " : String).length = 19 := rfl
  have h2 : ("" : String).length = 0 := rfl
  rw [h1, h2] at hl
  omega

/-- Claim C1: whenever a tool handler throws during execution — a provider
failure, a runtime error, or any other exception — the outer dispatch
boundary (lines 475-483) catches it and returns a Response Envelope with
`isError: true` and a non-empty text describing the error; `callTool` is
total, so no tool-execution exception reaches the protocol layer. -/
theorem callTool_catches_all_exceptions (p : Provider) (req : ToolRequest)
    (e : JsError) (t : Trace) (h : callToolInner p req = (Except.error e, t)) :
    (callTool p req).1 = { text := "Sipgate API error: " ++ e.message, isError := true }
    ∧ (callTool p req).1.text ≠ "" := by
  unfold callTool
  rw [h]
  exact ⟨rfl, sipgate_prefix_ne_empty e.message⟩

/-- Witness for C1: `get_account_info` against the failing provider throws
inside the handler; the dispatcher returns an `isError: true` envelope
with non-empty text. -/
theorem callTool_catches_all_exceptions_witness :
    (callTool failingProvider { name := "get_account_info", arguments := [] }).1 =
      { text := "Sipgate API error: Error getting account info: boom", isError := true }
    ∧ (callTool failingProvider { name := "get_account_info", arguments := [] }).1.text ≠ "" :=
  callTool_catches_all_exceptions failingProvider
    { name := "get_account_info", arguments := [] }
    (JsError.mcp ErrorCode.InternalError "Error getting account info: boom")
    [ProviderCall.getAccount] rfl

/-- Counterexample to Claim C2: for a tool-call request with an unknown
tool name the dispatcher does not raise a protocol-level `MethodNotFound`
error — the `McpError` thrown by the default case is caught by the outer
catch and the caller receives an `isError: true` envelope instead. -/
theorem unknownTool_yields_envelope_not_protocol_error :
    callTool testProvider { name := "no_such_tool", arguments := [] } =
      ({ text := "Sipgate API error: Unknown tool: no_such_tool", isError := true }, []) := rfl

/-- Claim C2 (amended): for a malformed tool call — an unknown tool name,
or `initiate_call` with the required `to` argument missing — the switch
throws `MethodNotFound` / `InvalidParams` before any provider call is made
(the trace is empty), but the outer catch converts the throw into an
`isError: true` envelope, so the protocol layer receives an error envelope
rather than a protocol-level error. -/
theorem malformed_calls_throw_then_become_envelopes (p : Provider) (req : ToolRequest) :
    (req.name ∉ toolNames →
       callToolInner p req =
         (Except.error (JsError.mcp ErrorCode.MethodNotFound
            ("Unknown tool: " ++ req.name)), [])
       ∧ (callTool p req).1.isError = true ∧ (callTool p req).2 = [])
    ∧ (req.name = "initiate_call" → argTruthy req.arguments "to" = false →
       callToolInner p req =
         (Except.error (JsError.mcp ErrorCode.InvalidParams
            "Missing required parameters: from and to are required"), [])
       ∧ (callTool p req).1.isError = true ∧ (callTool p req).2 = []) := by
  constructor
  · intro hn
    simp only [toolNames, List.mem_cons, List.not_mem_nil, or_false, not_or] at hn
    obtain ⟨h1, h2, h3, h4, h5, h6, h7⟩ := hn
    have hinner : callToolInner p req =
        (Except.error (JsError.mcp ErrorCode.MethodNotFound
          ("Unknown tool: " ++ req.name)), []) := by
      unfold callToolInner
      simp [h1, h2, h3, h4, h5, h6, h7]
    refine ⟨hinner, ?_, ?_⟩ <;> unfold callTool <;> rw [hinner]
  · intro hname hto
    have hinner : callToolInner p req =
        (Except.error (JsError.mcp ErrorCode.InvalidParams
          "Missing required parameters: from and to are required"), []) := by
      unfold callToolInner
      rw [hname]
      simp only [String.reduceEq, if_false, if_true, reduceIte]
      unfold initiateCallCase
      rw [hto]
      simp
    refine ⟨hinner, ?_, ?_⟩ <;> unfold callTool <;> rw [hinner]

/-- Witness for C2 (amended): concrete instances — an unknown tool name,
and `initiate_call` with `to` omitted — both yield empty traces and
`isError` envelopes. -/
theorem malformed_calls_throw_then_become_envelopes_witness :
    (callToolInner testProvider { name := "bogus_tool", arguments := [] } =
       (Except.error (JsError.mcp ErrorCode.MethodNotFound "Unknown tool: bogus_tool"), [])
     ∧ (callTool testProvider { name := "bogus_tool", arguments := [] }).1.isError = true
     ∧ (callTool testProvider { name := "bogus_tool", arguments := [] }).2 = [])
    ∧ (callToolInner testProvider
         { name := "initiate_call", arguments := [("from", Json.str "e0")] } =
       (Except.error (JsError.mcp ErrorCode.InvalidParams
          "Missing required parameters: from and to are required"), [])
     ∧ (callTool testProvider
          { name := "initiate_call", arguments := [("from", Json.str "e0")] }).1.isError = true
     ∧ (callTool testProvider
          { name := "initiate_call", arguments := [("from", Json.str "e0")] }).2 = []) :=
  ⟨(malformed_calls_throw_then_become_envelopes testProvider
      { name := "bogus_tool", arguments := [] }).1 (by decide),
   (malformed_calls_throw_then_become_envelopes testProvider
      { name := "initiate_call", arguments := [("from", Json.str "e0")] }).2 rfl rfl⟩

/-- Counterexample to Claim C3: a value can be present in the resource
cache and yet a subsequent `readResource` of the same uri contacts the
provider again and returns a different text.  First read: the provider
returns JSON `null` for `sipgate://numbers`, which is cached (one provider
call).  Second read of the same uri: the cached `null` is JS-falsy, so the
truthiness cache check at line 125 misses, the (changed) provider is
contacted again (a second round-trip), and the returned text differs from
the cached value's serialization. -/
theorem cached_falsy_value_refetched :
    (readResource nullProvider [] "sipgate://numbers" =
       (Except.ok { uri := "sipgate://numbers", text := "null" },
        [("sipgate://numbers", Json.null)], [ProviderCall.getAllNumbers]))
    ∧ (readResource testProvider [("sipgate://numbers", Json.null)] "sipgate://numbers" =
       (Except.ok { uri := "sipgate://numbers", text := "[\"+4912\"]" },
        [("sipgate://numbers", Json.arr [Json.str "+4912"])],
        [ProviderCall.getAllNumbers])) :=
  ⟨rfl, rfl⟩

/-- Claim C3 (amended): once a JS-truthy value for a uri is present in the
resource cache, every subsequent `readResource` of that uri — under any
provider behavior, i.e. even if provider state changed — returns that
cached value's serialization verbatim, performs no provider call (empty
trace), and leaves the cache unchanged.  For a JS-falsy cached value
(JSON `null`, `false`, `0`, `""`) the truthiness check misses and the
provider is contacted again. -/
theorem cache_hit_truthy_returned_verbatim (p : Provider) (c : Cache)
    (uri : String) (v : Json) (hlook : cacheLookup c uri = some v)
    (htruthy : jsTruthy v = true) :
    readResource p c uri =
      (Except.ok { uri := uri, text := jsonStringify v }, c, []) := by
  unfold readResource
  rw [hlook]
  simp [htruthy]

/-- Witness for C3 (amended): with a truthy array cached for
`sipgate://numbers`, a read against the failing provider still returns the
cached serialization with no provider call. -/
theorem cache_hit_truthy_returned_verbatim_witness :
    readResource failingProvider [("sipgate://numbers", Json.arr [Json.str "+4999"])]
        "sipgate://numbers" =
      (Except.ok { uri := "sipgate://numbers", text := "[\"+4999\"]" },
       [("sipgate://numbers", Json.arr [Json.str "+4999"])], []) :=
  cache_hit_truthy_returned_verbatim failingProvider
    [("sipgate://numbers", Json.arr [Json.str "+4999"])]
    "sipgate://numbers" (Json.arr [Json.str "+4999"]) rfl rfl

/-- Counterexample to Claim C4: reading the unknown uri `sipgate://bogus`
does not fail with `InvalidRequest` — the `InvalidRequest` error thrown at
line 159 is caught by the handler's own catch (lines 175-180) and
re-wrapped, so the read fails with code `InternalError`. -/
theorem unknown_uri_fails_with_InternalError :
    readResource testProvider [] "sipgate://bogus" =
      (Except.error (JsError.mcp ErrorCode.InternalError
         "Sipgate API error: Invalid URI: sipgate://bogus"), [], []) := rfl

/-- Claim C4 (amended): for every uri outside the fixed four-entry set
(and not hit in the cache), `readResource` performs no provider call (the
trace is empty) and fails with a protocol error whose code is
`InternalError` — not `InvalidRequest`, because the internally thrown
`InvalidRequest` is re-wrapped by the handler's catch — with a message
wrapping "Invalid URI: <uri>". -/
theorem unknown_uri_no_provider_call (p : Provider) (c : Cache) (uri : String)
    (hmiss : cacheLookup c uri = none)
    (h1 : uri ≠ "sipgate://account") (h2 : uri ≠ "sipgate://numbers")
    (h3 : uri ≠ "sipgate://history") (h4 : uri ≠ "sipgate://devices") :
    readResource p c uri =
      (Except.error (JsError.mcp ErrorCode.InternalError
         ("Sipgate API error: " ++ ("Invalid URI: " ++ uri))), c, []) := by
  unfold readResource
  rw [hmiss]
  unfold readResourceMiss readResourceUncached
  simp [h1, h2, h3, h4, JsError.message]

/-- Witness for C4 (amended): the unknown uri `sipgate://settings` with an
empty cache fails with `InternalError` and an empty trace. -/
theorem unknown_uri_no_provider_call_witness :
    readResource testProvider [] "sipgate://settings" =
      (Except.error (JsError.mcp ErrorCode.InternalError
         ("Sipgate API error: " ++ ("Invalid URI: " ++ "sipgate://settings"))), [], []) :=
  unknown_uri_no_provider_call testProvider [] "sipgate://settings" rfl
    (by decide) (by decide) (by decide) (by decide)

/-- Counterexample to Claim C5: when the provider returns an empty (but
present) array, `get_phone_numbers`, `get_devices` and `get_call_history`
do not return their fallback texts — an empty array is JS-truthy, so the
truthiness guard serializes it and the caller receives the bare JSON text
"[]". -/
theorem empty_collections_serialize_to_brackets :
    ((callTool emptyProvider { name := "get_phone_numbers", arguments := [] }).1 =
       { text := "[]", isError := false })
    ∧ ((callTool emptyProvider { name := "get_devices", arguments := [] }).1 =
       { text := "[]", isError := false })
    ∧ ((callTool emptyProvider { name := "get_call_history", arguments := [] }).1 =
       { text := "[]", isError := false }) :=
  ⟨rfl, rfl, rfl⟩

/-- Claim C5 (amended): each of the three tools returns its literal
fallback text, in a success envelope and never an error, exactly when the
provider's collection is absent (JS-falsy, e.g. JSON `null`); an empty
array, by contrast, is JS-truthy and is serialized as the bare text "[]"
(see the counterexample). -/
theorem fallback_on_absent_collections (p : Provider) (w : String) :
    (p.getAllNumbers = Except.ok Json.null →
       (callTool p { name := "get_phone_numbers", arguments := [] }).1 =
         { text := "No phone numbers available", isError := false })
    ∧ (p.getAuthenticatedWebuserId = Except.ok w →
       p.getDevices w = Except.ok Json.null →
       (callTool p { name := "get_devices", arguments := [] }).1 =
         { text := "No devices available", isError := false })
    ∧ (p.fetchAll { limit := Json.num 10, types := some defaultHistoryTypes } =
         Except.ok Json.null →
       (callTool p { name := "get_call_history", arguments := [] }).1 =
         { text := "No call history available", isError := false }) := by
  refine ⟨?_, ?_, ?_⟩
  · intro hn
    unfold callTool callToolInner getPhoneNumbersCase
    simp [hn, jsTruthy]
  · intro hw hd
    unfold callTool callToolInner getDevicesCase
    simp [hw, hd, jsTruthy]
  · intro hh
    unfold callTool callToolInner getCallHistoryCase
    simp [argGet, hh, jsTruthy]

/-- Witness for C5 (amended): against the provider whose collections are
JSON `null`, all three tools return their fallback texts in success
envelopes. -/
theorem fallback_on_absent_collections_witness :
    ((callTool nullProvider { name := "get_phone_numbers", arguments := [] }).1 =
       { text := "No phone numbers available", isError := false })
    ∧ ((callTool nullProvider { name := "get_devices", arguments := [] }).1 =
       { text := "No devices available", isError := false })
    ∧ ((callTool nullProvider { name := "get_call_history", arguments := [] }).1 =
       { text := "No call history available", isError := false }) :=
  ⟨(fallback_on_absent_collections nullProvider "w0").1 rfl,
   (fallback_on_absent_collections nullProvider "w0").2.1 rfl rfl,
   (fallback_on_absent_collections nullProvider "w0").2.2 rfl⟩

/-- Counterexample to Claim C6: `smsId` is declared required in the
`send_sms` descriptor, yet invoking `send_sms` with `smsId` omitted (but
`recipient` and `message` present) does not fail with `InvalidParams` —
the call succeeds and the provider adapter IS invoked (the trace contains
the `sendSms` call). -/
theorem smsId_omitted_not_validated :
    ((callTool testProvider
        { name := "send_sms",
          arguments := [("recipient", Json.str "+49151"), ("message", Json.str "hi")] }).1.isError
       = false)
    ∧ (callTool testProvider
        { name := "send_sms",
          arguments := [("recipient", Json.str "+49151"), ("message", Json.str "hi")] }).2 =
      [ProviderCall.getAuthenticatedWebuserId,
       ProviderCall.getSmsCapabilities "w0",
       ProviderCall.sendSms
         { smsId := some (Json.str "s0"), to_ := "+49151", message := some (Json.str "hi") }] :=
  ⟨rfl, rfl⟩

/-- Claim C6 (amended): the only arguments actually validated are
`recipient` and `message` for `send_sms` and `from` and `to` for
`initiate_call` (omitting `smsId` alone is not detected — see the
counterexample).  Omitting a validated argument makes the handler throw
before any provider call (the trace is empty): `initiate_call` throws
`InvalidParams`; `send_sms`'s own catch re-wraps its `InvalidParams` throw
as `InternalError` carrying the same message; in both cases the outer
boundary then surfaces an `isError` envelope, not a protocol error. -/
theorem missing_validated_argument_no_provider_call (p : Provider) (args : Args) :
    ((argTruthy args "recipient" = false ∨ argTruthy args "message" = false) →
       sendSmsCase p args =
         (Except.error (JsError.mcp ErrorCode.InternalError
            ("SMS sending failed: " ++
             "Missing required parameters: recipient and message are required")), []))
    ∧ ((argTruthy args "from" = false ∨ argTruthy args "to" = false) →
       initiateCallCase p args =
         (Except.error (JsError.mcp ErrorCode.InvalidParams
            "Missing required parameters: from and to are required"), [])) := by
  constructor
  · intro h
    unfold sendSmsCase sendSmsBody
    rcases h with h | h <;> simp [h, JsError.message]
  · intro h
    unfold initiateCallCase
    rcases h with h | h <;> simp [h]

/-- Witness for C6 (amended): `send_sms` with `recipient` omitted and
`initiate_call` with `to` omitted both produce empty traces and the stated
errors. -/
theorem missing_validated_argument_no_provider_call_witness :
    (sendSmsCase testProvider [("smsId", Json.str "s0"), ("message", Json.str "hi")] =
       (Except.error (JsError.mcp ErrorCode.InternalError
          ("SMS sending failed: " ++
           "Missing required parameters: recipient and message are required")), []))
    ∧ (initiateCallCase testProvider [("to", Json.str "+49151")] =
       (Except.error (JsError.mcp ErrorCode.InvalidParams
          "Missing required parameters: from and to are required"), [])) :=
  ⟨(missing_validated_argument_no_provider_call testProvider
      [("smsId", Json.str "s0"), ("message", Json.str "hi")]).1 (Or.inl rfl),
   (missing_validated_argument_no_provider_call testProvider
      [("to", Json.str "+49151")]).2 (Or.inl rfl)⟩

/-- Helper: when `send_sms` validation passes (string recipient, truthy
message), the webuser id resolves to `w`, and the extensions response
resolves to a non-empty list `ext :: rest`, the handler's provider trace
is exactly: resolve webuser id, list SMS extensions, then send with the
FIRST extension's `id`, the whitespace-stripped recipient and the given
message — whatever `p.sendSms` then returns. -/
theorem sendSmsCase_trace_resolved (p : Provider) (args : Args) (w r : String)
    (resp msgv ext : Json) (rest : List Json)
    (hrec : argGet args "recipient" = some (Json.str r)) (hr : r ≠ "")
    (hmsg : argGet args "message" = some msgv) (hmt : jsTruthy msgv = true)
    (hw : p.getAuthenticatedWebuserId = Except.ok w)
    (hx : p.getSmsCapabilities w = Except.ok resp)
    (hexts : smsExtensions resp = ext :: rest) :
    (sendSmsCase p args).2 =
      [ProviderCall.getAuthenticatedWebuserId,
       ProviderCall.getSmsCapabilities w,
       ProviderCall.sendSms
         { smsId := jsField ext "id", to_ := stripWs r, message := some msgv }] := by
  have ha : argTruthy args "recipient" = true := by
    simp [argTruthy, hrec, jsTruthyOpt, jsTruthy, bne_iff_ne, hr]
  have hb : argTruthy args "message" = true := by
    simp [argTruthy, hmsg, jsTruthyOpt, hmt]
  unfold sendSmsCase sendSmsBody
  simp only [ha, hb, hw, hx, hexts, hrec, hmsg, Bool.not_true, Bool.or_self,
    Bool.false_eq_true, if_false, jsReplaceStripWs]
  cases p.sendSms { smsId := jsField ext "id", to_ := stripWs r, message := some msgv } <;> rfl

/-- Claim C7: for every `send_sms` invocation that passes validation, if
the extensions list returned for the authenticated user is non-empty, the
extension used for sending is its FIRST entry — the forwarded `smsId` is
the first extension's `id`, and the caller-supplied `smsId` argument
(arbitrary inside `args`) plays no role; if the extensions list is empty,
the handler fails with an `InternalError` and no SMS is sent (no `sendSms`
call appears in the trace). -/
theorem sendSms_first_extension_or_InternalError (p : Provider) (args : Args)
    (w r : String) (resp msgv : Json)
    (hrec : argGet args "recipient" = some (Json.str r)) (hr : r ≠ "")
    (hmsg : argGet args "message" = some msgv) (hmt : jsTruthy msgv = true)
    (hw : p.getAuthenticatedWebuserId = Except.ok w)
    (hx : p.getSmsCapabilities w = Except.ok resp) :
    (∀ ext rest, smsExtensions resp = ext :: rest →
       (sendSmsCase p args).2 =
         [ProviderCall.getAuthenticatedWebuserId,
          ProviderCall.getSmsCapabilities w,
          ProviderCall.sendSms
            { smsId := jsField ext "id", to_ := stripWs r, message := some msgv }])
    ∧ (smsExtensions resp = [] →
       sendSmsCase p args =
         (Except.error (JsError.mcp ErrorCode.InternalError
            ("SMS sending failed: " ++ "No SMS extensions available for this account")),
          [ProviderCall.getAuthenticatedWebuserId,
           ProviderCall.getSmsCapabilities w])) := by
  constructor
  · intro ext rest hexts
    exact sendSmsCase_trace_resolved p args w r resp msgv ext rest
      hrec hr hmsg hmt hw hx hexts
  · intro hempty
    have ha : argTruthy args "recipient" = true := by
      simp [argTruthy, hrec, jsTruthyOpt, jsTruthy, bne_iff_ne, hr]
    have hb : argTruthy args "message" = true := by
      simp [argTruthy, hmsg, jsTruthyOpt, hmt]
    unfold sendSmsCase sendSmsBody
    simp only [ha, hb, hw, hx, hempty, Bool.not_true, Bool.or_self,
      Bool.false_eq_true, if_false, JsError.message]

/-- Witness for C7: against the test provider (extensions "s0" then "s1"),
`send_sms` called with the caller-supplied `smsId` "s99" forwards the
FIRST extension's id "s0"; and against a provider with an empty extensions
list the handler fails with `InternalError` and its trace contains no
`sendSms` call. -/
theorem sendSms_first_extension_or_InternalError_witness :
    ((sendSmsCase testProvider
        [("smsId", Json.str "s99"), ("recipient", Json.str "+49 151 2345 6789"),
         ("message", Json.str "hello")]).2 =
      [ProviderCall.getAuthenticatedWebuserId,
       ProviderCall.getSmsCapabilities "w0",
       ProviderCall.sendSms
         { smsId := some (Json.str "s0"), to_ := "+4915123456789",
           message := some (Json.str "hello") }])
    ∧ (sendSmsCase nullProvider
        [("smsId", Json.str "s99"), ("recipient", Json.str "+49 151 2345 6789"),
         ("message", Json.str "hello")] =
      (Except.error (JsError.mcp ErrorCode.InternalError
         ("SMS sending failed: " ++ "No SMS extensions available for this account")),
       [ProviderCall.getAuthenticatedWebuserId,
        ProviderCall.getSmsCapabilities "w0"])) :=
  ⟨(sendSms_first_extension_or_InternalError testProvider
      [("smsId", Json.str "s99"), ("recipient", Json.str "+49 151 2345 6789"),
       ("message", Json.str "hello")]
      "w0" "+49 151 2345 6789"
      (Json.obj [("items", Json.arr
        [Json.obj [("id", Json.str "s0")], Json.obj [("id", Json.str "s1")]])])
      (Json.str "hello") rfl (by decide) rfl rfl rfl rfl).1
      (Json.obj [("id", Json.str "s0")]) [Json.obj [("id", Json.str "s1")]] rfl,
   (sendSms_first_extension_or_InternalError nullProvider
      [("smsId", Json.str "s99"), ("recipient", Json.str "+49 151 2345 6789"),
       ("message", Json.str "hello")]
      "w0" "+49 151 2345 6789" (Json.obj [("items", Json.arr [])])
      (Json.str "hello") rfl (by decide) rfl rfl rfl rfl).2 rfl⟩

/-- Claim C8: for every `send_sms` invocation that reaches the provider,
the recipient forwarded in the `to` field of the sms data is the
caller-supplied recipient with every whitespace character removed; in
particular "+49 151 2345 6789" is forwarded as "+4915123456789". -/
theorem sendSms_strips_whitespace_from_recipient (p : Provider) (args : Args)
    (w r : String) (resp msgv ext : Json) (rest : List Json)
    (hrec : argGet args "recipient" = some (Json.str r)) (hr : r ≠ "")
    (hmsg : argGet args "message" = some msgv) (hmt : jsTruthy msgv = true)
    (hw : p.getAuthenticatedWebuserId = Except.ok w)
    (hx : p.getSmsCapabilities w = Except.ok resp)
    (hexts : smsExtensions resp = ext :: rest) :
    ((sendSmsCase p args).2 =
      [ProviderCall.getAuthenticatedWebuserId,
       ProviderCall.getSmsCapabilities w,
       ProviderCall.sendSms
         { smsId := jsField ext "id", to_ := stripWs r, message := some msgv }])
    ∧ stripWs "+49 151 2345 6789" = "+4915123456789" :=
  ⟨sendSmsCase_trace_resolved p args w r resp msgv ext rest
     hrec hr hmsg hmt hw hx hexts, by decide⟩

/-- Witness for C8: the concrete recipient "+49 151 2345 6789" is
forwarded to the provider as "+4915123456789". -/
theorem sendSms_strips_whitespace_from_recipient_witness :
    ((sendSmsCase testProvider
        [("recipient", Json.str "+49 151 2345 6789"), ("message", Json.str "hi")]).2 =
      [ProviderCall.getAuthenticatedWebuserId,
       ProviderCall.getSmsCapabilities "w0",
       ProviderCall.sendSms
         { smsId := some (Json.str "s0"), to_ := "+4915123456789",
           message := some (Json.str "hi") }])
    ∧ stripWs "+49 151 2345 6789" = "+4915123456789" :=
  sendSms_strips_whitespace_from_recipient testProvider
    [("recipient", Json.str "+49 151 2345 6789"), ("message", Json.str "hi")]
    "w0" "+49 151 2345 6789"
    (Json.obj [("items", Json.arr
      [Json.obj [("id", Json.str "s0")], Json.obj [("id", Json.str "s1")]])])
    (Json.str "hi") (Json.obj [("id", Json.str "s0")]) [Json.obj [("id", Json.str "s1")]]
    rfl (by decide) rfl rfl rfl rfl rfl

/-- Claim C9: a `readResource` on a uri that is not cached and whose
provider call fails (a plain provider error, which only the four known
uris can produce) fails with a protocol-level `InternalError` wrapping the
provider's message — it is thrown, not returned as an envelope — and the
cache is returned unchanged, so nothing is cached for that uri. -/
theorem resource_provider_failure_throws_and_caches_nothing (p : Provider)
    (c : Cache) (uri m : String) (t : Trace)
    (hmiss : cacheLookup c uri = none)
    (hfail : readResourceUncached p uri = (Except.error (JsError.plain m), t)) :
    readResource p c uri =
      (Except.error (JsError.mcp ErrorCode.InternalError
         ("Sipgate API error: " ++ m)), c, t) := by
  unfold readResource
  rw [hmiss]
  unfold readResourceMiss
  rw [hfail]
  rfl

/-- Witness for C9: reading `sipgate://numbers` with an empty cache
against the failing provider throws `InternalError` wrapping "boom" and
leaves the cache empty. -/
theorem resource_provider_failure_throws_and_caches_nothing_witness :
    readResource failingProvider [] "sipgate://numbers" =
      (Except.error (JsError.mcp ErrorCode.InternalError
         ("Sipgate API error: " ++ "boom")), [], [ProviderCall.getAllNumbers]) :=
  resource_provider_failure_throws_and_caches_nothing failingProvider []
    "sipgate://numbers" "boom" [ProviderCall.getAllNumbers] rfl rfl

/-- Claim C10: `get_call_history` invoked with no arguments passes the
provider a history filter with limit 10 and all four history types
[CALL, VOICEMAIL, FAX, SMS] (visible in the trace), and — when the
provider returns a truthy result — succeeds with that result serialized
as JSON text. -/
theorem call_history_defaults_limit10_all_types (p : Provider) (h : Json)
    (hp : p.fetchAll { limit := Json.num 10, types := some defaultHistoryTypes } =
            Except.ok h)
    (ht : jsTruthy h = true) :
    callTool p { name := "get_call_history", arguments := [] } =
      ({ text := jsonStringify h, isError := false },
       [ProviderCall.fetchAll { limit := Json.num 10, types := some defaultHistoryTypes }]) := by
  unfold callTool callToolInner getCallHistoryCase
  simp [argGet, hp, ht]

/-- Witness for C10: against the test provider, `get_call_history` with no
arguments succeeds with the provider's history serialized as JSON and the
default filter in the trace. -/
theorem call_history_defaults_limit10_all_types_witness :
    callTool testProvider { name := "get_call_history", arguments := [] } =
      ({ text := jsonStringify (Json.arr [Json.str "call1"]), isError := false },
       [ProviderCall.fetchAll { limit := Json.num 10, types := some defaultHistoryTypes }]) :=
  call_history_defaults_limit10_all_types testProvider (Json.arr [Json.str "call1"]) rfl rfl

end Sipgate
